import Mathlib

/-!
Verification of the DPanel control-plane client (src-tauri/src).

This file shallowly embeds the parts of the repository that carry real
invariants: the SSH session lifecycle (`ssh.rs`), the metrics aggregation
and its bounded history buffers (`commands.rs`), the memory-string parser
(`commands.rs`), and the compose-file discovery cache with its structural
service parser (`compose_discovery.rs`).  External collaborators (the TCP
stream, the ssh2 transport, the remote shell, the file system) are passed
in as explicit result environments; machine integers are `Nat` with the
saturating/wrapping behaviour of the source made explicit; `f64` values
that the source parses from decimal text are modelled as exact
fractions (`MRat`).
-/

set_option maxHeartbeats 1000000

/-! ## String helpers mirroring the Rust standard library

All of these are implemented by structural recursion over the underlying
character list, so that every definition in this file evaluates inside
the kernel (the corresponding core `String` functions are defined by
well-founded recursion over byte positions and do not reduce). -/

/-- Split a character list at every occurrence of the character `c`. -/
def chSplit (c : Char) (l : List Char) : List (List Char) :=
  l.foldr (fun d acc =>
    match acc with
    | [] => [[]]
    | a :: as => if d = c then [] :: a :: as else (d :: a) :: as) [[]]

/-- Split a character list at every character satisfying `p`. -/
def chSplitP (p : Char → Bool) (l : List Char) : List (List Char) :=
  l.foldr (fun d acc =>
    match acc with
    | [] => [[]]
    | a :: as => if p d then [] :: a :: as else (d :: a) :: as) [[]]

/-- Rust `str::split (c : char)`. -/
def strSplitChar (s : String) (c : Char) : List String :=
  (chSplit c s.data).map (fun l => ⟨l⟩)

/-- Rust `str::is_empty`. -/
def strIsEmpty (s : String) : Bool := s.data.isEmpty

/-- Rust `str::starts_with (p : &str)`. -/
def strStartsWith (s p : String) : Bool := p.data.isPrefixOf s.data

/-- Rust `str::trim_start` (ASCII whitespace suffices for the inputs here). -/
def trimStart (s : String) : String := ⟨s.data.dropWhile Char.isWhitespace⟩

/-- Rust `str::trim`. -/
def strTrim (s : String) : String :=
  ⟨((s.data.dropWhile Char.isWhitespace).reverse.dropWhile Char.isWhitespace).reverse⟩

/-- Rust `str::to_uppercase` (ASCII inputs only in this program). -/
def strToUpper (s : String) : String := ⟨s.data.map Char.toUpper⟩

/-- Drop the first `n` characters, Rust byte slicing `&s[n..]` on ASCII. -/
def strDrop (s : String) (n : Nat) : String := ⟨s.data.drop n⟩

/-- Rust `str::lines`: split on newline, drop a single trailing empty
segment, and strip one trailing carriage return per line. -/
def rustLines (s : String) : List String :=
  let ls := strSplitChar s '\n'
  let ls := if ls.getLast? = some "" then ls.dropLast else ls
  ls.map (fun l =>
    if l.data.getLast? = some '\x0d' then (⟨l.data.dropLast⟩ : String) else l)

/-- Rust `str::split_whitespace`: split on whitespace runs, no empty items. -/
def splitWhitespace (s : String) : List String :=
  ((chSplitP Char.isWhitespace s.data).map (fun l => (⟨l⟩ : String))).filter
    (fun t => ¬ strIsEmpty t)

/-- Rust `str::trim_end_matches (c : char)`: remove every trailing `c`. -/
def trimEndMatchesChar (s : String) (c : Char) : String :=
  ⟨(s.data.reverse.dropWhile (fun d => d = c)).reverse⟩

/-- Whether `pat` occurs as a contiguous sublist of `l`. -/
def listContainsSub (pat : List Char) : List Char → Bool
  | [] => pat.isEmpty
  | c :: cs => pat.isPrefixOf (c :: cs) || listContainsSub pat cs

/-- Rust `str::contains (sub : &str)` for a literal substring pattern. -/
def containsSubstr (s sub : String) : Bool := listContainsSub sub.data s.data

/-- Replace every non-overlapping occurrence of `pat` (non-empty) by
`rep`, left to right; `fuel` bounds the recursion by the input length. -/
def replaceFuel (pat rep : List Char) : Nat → List Char → List Char
  | 0, l => l
  | _, [] => []
  | fuel + 1, c :: cs =>
    if pat.isPrefixOf (c :: cs) then
      rep ++ replaceFuel pat rep fuel (cs.drop (pat.length - 1))
    else
      c :: replaceFuel pat rep fuel cs

/-- Rust `str::replace` (the empty-pattern case never occurs here). -/
def strReplace (s pat rep : String) : String :=
  if pat.data.isEmpty then s else ⟨replaceFuel pat.data rep.data s.data.length s.data⟩

/-- Decimal digit-string value, `none` on empty or non-digit input. -/
def digitsToNat? (l : List Char) : Option Nat :=
  if l.isEmpty then none
  else if l.all (fun c => c.isDigit) then
    some (l.foldl (fun n c => n * 10 + (c.toNat - 48)) 0)
  else none

/-- Rust `"{}".parse::<u64>()`: decimal digits only, range-checked. -/
def parseU64 (s : String) : Option Nat :=
  match digitsToNat? s.data with
  | some n => if n < 2 ^ 64 then some n else none
  | none => none

/-- Rust `"{}".parse::<u32>()`: decimal digits only, range-checked. -/
def parseU32 (s : String) : Option Nat :=
  match digitsToNat? s.data with
  | some n => if n < 2 ^ 32 then some n else none
  | none => none

/-- Exact model of the `f64` values this program computes: an
unnormalized fraction.  Every `f64` the source manipulates is obtained by
parsing short decimal text and multiplying/dividing by small constants,
which is exact in this representation; the program never compares float
values for equality, so normalization is unnecessary.  Kept free of
`Rat` so that every operation reduces inside the kernel. -/
structure MRat where
  num : Int
  den : Nat
deriving DecidableEq

instance (n : Nat) : OfNat MRat n := ⟨⟨n, 1⟩⟩

/-- Embed a machine integer into the float model (`x as f64`). -/
def MRat.ofN (n : Nat) : MRat := ⟨n, 1⟩

def MRat.mul (a b : MRat) : MRat := ⟨a.num * b.num, a.den * b.den⟩

def MRat.add (a b : MRat) : MRat :=
  ⟨a.num * b.den + b.num * a.den, a.den * b.den⟩

def MRat.neg (a : MRat) : MRat := ⟨-a.num, a.den⟩

/-- Multiplicative inverse; a zero numerator never reaches this in the
program (divisions are guarded by positivity of the divisor). -/
def MRat.inv (a : MRat) : MRat :=
  if a.num ≥ 0 then ⟨a.den, a.num.toNat⟩ else ⟨-(a.den : Int), (-a.num).toNat⟩

def MRat.div (a b : MRat) : MRat := a.mul b.inv

instance : Mul MRat := ⟨MRat.mul⟩
instance : Add MRat := ⟨MRat.add⟩
instance : Neg MRat := ⟨MRat.neg⟩
instance : Div MRat := ⟨MRat.div⟩

/-- Rust `"{}".parse::<f64>()` restricted to plain decimal notation
(optional sign, digits, optional fractional part), exact in the fraction
model.  Every numeric string this program feeds to the float parser is of
this shape or fails to parse in both models. -/
def parseF64 (s : String) : Option MRat :=
  let core : List Char → Option MRat := fun r =>
    match chSplit '.' r with
    | [i] => (digitsToNat? i).map MRat.ofN
    | [i, f] =>
      if i.isEmpty && f.isEmpty then none
      else
        let iv : Option Nat := if i.isEmpty then some 0 else digitsToNat? i
        let fv : Option Nat := if f.isEmpty then some 0 else digitsToNat? f
        match iv, fv with
        | some a, some b =>
          some (MRat.ofN a + MRat.ofN b / ⟨(10 : Int) ^ f.length, 1⟩)
        | _, _ => none
    | _ => none
  match s.data with
  | '-' :: rest => (core rest).map MRat.neg
  | '+' :: rest => core rest
  | l => core l

/-- Rust `f64 as u64`: truncate toward zero, saturate below at 0 (all
values reached in this program are far below `u64::MAX`). -/
def ratToU64 (q : MRat) : Nat := if q.num < 0 then 0 else q.num.toNat / q.den

/-! ## `parse_memory` (src-tauri/src/commands.rs, lines 404-426)

Translates docker memory strings into bytes.  Binary (`GiB`) and decimal
(`GB`) suffixes are both multiplied by binary factors. -/

def parse_memory (mem_str₀ : String) : Nat :=
  let mem_str := strToUpper (strTrim mem_str₀)
  if containsSubstr mem_str "GIB" || containsSubstr mem_str "GB" then
    let value_str := strReplace (strReplace mem_str "GIB" " ") "GB" " "
    let value := (parseF64 (strTrim value_str)).getD 0
    ratToU64 (value * 1024 * 1024 * 1024)
  else if containsSubstr mem_str "MIB" || containsSubstr mem_str "MB" then
    let value_str := strReplace (strReplace mem_str "MIB" " ") "MB" " "
    let value := (parseF64 (strTrim value_str)).getD 0
    ratToU64 (value * 1024 * 1024)
  else if containsSubstr mem_str "KIB" || containsSubstr mem_str "KB" then
    let value_str := strReplace (strReplace mem_str "KIB" " ") "KB" " "
    let value := (parseF64 (strTrim value_str)).getD 0
    ratToU64 (value * 1024)
  else
    let value_str := strReplace mem_str "B" " "
    let value := (parseF64 (strTrim value_str)).getD 0
    ratToU64 value

/-! ## `extract_services_from_content` (src-tauri/src/compose_discovery.rs, lines 242-287)

Indentation-heuristic scanner for the `services:` section of a compose
file.  The state carried through the line fold is
`(services, in_services, indent_level)` exactly as in the source. -/

/-- Rust `str::starts_with(|c: char| c.is_alphabetic())`. -/
def firstCharAlpha (s : String) : Bool :=
  match s.data with
  | [] => false
  | c :: _ => c.isAlpha

/-- One iteration of the line loop of `extract_services_from_content`. -/
def extractStep (st : List String × Bool × Nat) (line : String) : List String × Bool × Nat :=
  let (services, in_services, indent_level) := st
  let trimmed := trimStart line
  if strIsEmpty trimmed || strStartsWith trimmed "#" then
    st
  else if strStartsWith trimmed "services:" then
    (services, true, line.data.length - trimmed.data.length)
  else if in_services then
    let current_indent := line.data.length - trimmed.data.length
    if current_indent ≤ indent_level && trimmed.data.any (fun c => c = ':')
        && ¬ strStartsWith trimmed "-"
        && (¬ firstCharAlpha trimmed || current_indent < indent_level) then
      (services, false, indent_level)
    else if current_indent > indent_level && trimmed.data.any (fun c => c = ':') then
      let service_name := strTrim ((strSplitChar trimmed ':').headD "")
      if ¬ strIsEmpty service_name && ¬ strStartsWith service_name "-" then
        (services ++ [service_name], in_services, indent_level)
      else
        (services, in_services, indent_level)
    else
      (services, in_services, indent_level)
  else
    st

def extract_services_from_content (content : String) : List String :=
  ((rustLines content).foldl extractStep ([], false, 0)).1

/-! ## The SSH session (src-tauri/src/ssh.rs)

The ssh2 collaborator is abstracted into an environment of call results.
A `Session` is reduced to the one observable the code consults: the
`authenticated()` flag, which is stable once the handshake and
authentication have completed. -/

deriving instance DecidableEq for Except

structure CommandError where
  message : String
  code : Int
deriving DecidableEq

inductive AuthMethod where
  | password (password : String)
  | privateKey (key_path : String) (passphrase : Option String)
deriving DecidableEq

structure ServerProfile where
  id : String
  name : String
  host : String
  port : Nat
  username : String
  auth_method : AuthMethod
deriving DecidableEq

structure Session where
  authenticated : Bool
deriving DecidableEq

/-- The stored `Arc<Mutex<Option<Session>>>` handle of `SshClient`. -/
abbrev SshState := Option Session

/-- Results of the external calls made by `SshClient::connect`
(ssh.rs, lines 30-94): TCP connect, `Session::new`, handshake, the
`userauth_*` call, and the value of `session.authenticated()` afterwards.
`home` is the `HOME` environment variable read by `expand_tilde`. -/
structure ConnectEnv where
  tcpConnect : Except String Unit
  sessionNew : Except String Unit
  handshake : Except String Unit
  userauth : Except String Unit
  authenticated : Bool
  home : Option String
deriving DecidableEq

/-- `SshClient::expand_tilde` (ssh.rs, lines 21-28). -/
def expand_tilde (home : Option String) (path : String) : String :=
  if strStartsWith path "~/" then
    match home with
    | some h => h ++ "/" ++ strDrop path 2
    | none => path
  else path

/-- `SshClient::connect` (ssh.rs, lines 30-94).  Every failure path
returns before the stored session handle is replaced; the handle is
overwritten only after the `authenticated()` check has passed. -/
def sshConnect (stored : SshState) (config : ServerProfile) (env : ConnectEnv) :
    SshState × Except CommandError Unit :=
  match env.tcpConnect with
  | .error e =>
    (stored, .error ⟨"Failed to connect to " ++ config.host ++ ":" ++ toString config.port
      ++ ": " ++ e, -1⟩)
  | .ok _ =>
  match env.sessionNew with
  | .error e => (stored, .error ⟨"Failed to create SSH session: " ++ e, -1⟩)
  | .ok _ =>
  match env.handshake with
  | .error e => (stored, .error ⟨"SSH handshake failed: " ++ e, -1⟩)
  | .ok _ =>
  let authFailMsg := match config.auth_method with
    | .password _ => "Password authentication failed: "
    | .privateKey _ _ => "Key authentication failed: "
  match env.userauth with
  | .error e => (stored, .error ⟨authFailMsg ++ e, -1⟩)
  | .ok _ =>
  if ¬ env.authenticated then
    (stored, .error ⟨"SSH authentication failed", -1⟩)
  else
    (some ⟨env.authenticated⟩, .ok ())

/-- `SshClient::disconnect` (ssh.rs, lines 96-102): take and drop. -/
def sshDisconnect (_stored : SshState) : SshState := none

/-- `SshClient::is_connected` (ssh.rs, lines 152-155). -/
def is_connected (stored : SshState) : Bool :=
  match stored with
  | none => false
  | some s => s.authenticated

/-- Results of the channel operations used by `SshClient::execute_command`
(ssh.rs, lines 104-150), plus `stderrContent`: what the remote error
channel actually carried.  The source never reads the error channel, so
`stderrContent` feeds into nothing — it is recorded here so that the
divergence between the documented policy and the behaviour is statable. -/
structure ChannelEnv where
  openChannel : Except String Unit
  execCall : Except String Unit
  readStdout : Except String String
  waitClose : Except String Unit
  exitStatus : Except String Int
  stderrContent : String
deriving DecidableEq

/-- `SshClient::execute_command` (ssh.rs, lines 104-150).  The local
`stderr` is initialized to the empty string and never written (the source
declares `let stderr = String::new();` and reads only stdout), so the
`output.is_empty() && !stderr.is_empty()` error branch is unreachable. -/
def execute_command (stored : SshState) (_command : String) (env : ChannelEnv) :
    Except CommandError String :=
  match stored with
  | none => .error ⟨"Not connected", -1⟩
  | some _ =>
  match env.openChannel with
  | .error e => .error ⟨"Failed to open channel: " ++ e, -1⟩
  | .ok _ =>
  match env.execCall with
  | .error e => .error ⟨"Failed to execute command: " ++ e, -1⟩
  | .ok _ =>
  let stderr := ""
  match env.readStdout with
  | .error e => .error ⟨"Failed to read output: " ++ e, -1⟩
  | .ok output =>
  match env.waitClose with
  | .error e => .error ⟨"Failed to wait for channel close: " ++ e, -1⟩
  | .ok _ =>
  match env.exitStatus with
  | .error e => .error ⟨"Failed to get exit status: " ++ e, -1⟩
  | .ok exit_status =>
  if strIsEmpty output && ¬ strIsEmpty stderr then
    .error ⟨stderr, exit_status⟩
  else
    .ok output

/-! ## Metrics aggregation (src-tauri/src/commands.rs)

`get_system_metrics` spawns one thread per diagnostic command and joins
them in program order; each join result is a value of the shared
`SshClient::execute_command`.  The embedding receives the eight command
results as a `CmdResults` environment and threads the mutable `AppState`
explicitly.  All `f64` values are exact fractions; `u64`/`u32` are `Nat`. -/

structure NetworkStats where
  bytes_sent : Nat
  bytes_recv : Nat
  packets_sent : Nat
  packets_recv : Nat
  interface : String
deriving DecidableEq

structure NetworkHistoryPoint where
  timestamp : Nat
  bytes_sent : Nat
  bytes_recv : Nat
deriving DecidableEq

structure DiskUsage where
  mount_point : String
  used : Nat
  total : Nat
  percent : MRat
deriving DecidableEq

structure SystemMetrics where
  cpu_percent : MRat
  memory_used : Nat
  memory_total : Nat
  disk_usage : List DiskUsage
  load_avg : MRat × MRat × MRat
  uptime : Nat
  process_count : Nat
  network : NetworkStats
  cpu_history : List MRat
  memory_history : List MRat
  network_history : List NetworkHistoryPoint
deriving DecidableEq

/-- The mutable application state (commands.rs, lines 40-62), restricted
to the fields the verified operations touch.  The SSH client slot is
`Option Unit` — the aggregation only checks for its presence; the profile
map and compose cache are modelled separately. -/
structure AppState where
  ssh_client : Option Unit
  cpu_history : List MRat
  memory_history : List MRat
  network_history : List NetworkHistoryPoint
  last_network_stats : Option NetworkStats
deriving DecidableEq

/-- `AppState::default` (commands.rs, lines 50-62). -/
def appStateDefault : AppState :=
  { ssh_client := none, cpu_history := [], memory_history := [],
    network_history := [], last_network_stats := none }

/-- `MAX_HISTORY_POINTS` (commands.rs, line 13). -/
def MAX_HISTORY_POINTS : Nat := 10

/-- The history-append step used for each of the three buffers
(commands.rs, lines 276-325): push to the back, then `remove(0)` once if
the length exceeds `MAX_HISTORY_POINTS`. -/
def pushHistory {α : Type} (h : List α) (v : α) : List α :=
  let h := h ++ [v]
  if h.length > MAX_HISTORY_POINTS then h.drop 1 else h

/-- The network-delta block of `get_system_metrics` (commands.rs, lines
299-325): build the history point from the stored last sample with
`u64::saturating_sub` (here `Nat` subtraction), store the new raw sample
as last unconditionally, and append the point to the network history. -/
def updateNetworkHistory (st : AppState) (network : NetworkStats) (timestamp : Nat) :
    NetworkHistoryPoint × AppState :=
  let point := match st.last_network_stats with
    | some last =>
      { timestamp := timestamp,
        bytes_sent := network.bytes_sent - last.bytes_sent,
        bytes_recv := network.bytes_recv - last.bytes_recv }
    | none => { timestamp := timestamp, bytes_sent := 0, bytes_recv := 0 }
  (point, { st with last_network_stats := some network,
                    network_history := pushHistory st.network_history point })

/-- Joined results of the eight remote commands issued by
`get_system_metrics` (commands.rs, lines 164-259), in program order:
CPU line, memory totals, disk usage, load average, uptime, process
count, raw network counters, interface name. -/
structure CmdResults where
  cpu : Except CommandError String
  mem : Except CommandError String
  disk : Except CommandError String
  load : Except CommandError String
  uptime : Except CommandError String
  proc : Except CommandError String
  net : Except CommandError String
  iface : Except CommandError String

/-- The pure parsing-and-assembly tail of `get_system_metrics`
(commands.rs, lines 196-345), applied once all eight command outputs are
at hand.  Parse failures default to zero; the three history buffers are
appended via `pushHistory` and the network block via
`updateNetworkHistory`; the returned snapshot carries clones of the
updated buffers. -/
def buildMetrics (st : AppState) (timestamp : Nat)
    (cpu_output mem_output disk_output load_output uptime_output proc_output
     network_output iface_output : String) : SystemMetrics × AppState :=
  let cpu_percent : MRat := (parseF64 (strTrim cpu_output)).getD 0
  let mem_parts := splitWhitespace (strTrim mem_output)
  let memory_used : Nat := ((mem_parts.get? 0).bind parseU64).getD 0
  let memory_total : Nat := ((mem_parts.get? 1).bind parseU64).getD 0
  let disk_usage : List DiskUsage :=
    (rustLines disk_output).foldl (fun acc line =>
      let parts := splitWhitespace line
      if parts.length ≥ 4 then
        acc ++ [{ mount_point := parts.headD "",
                  used := ((parts.get? 1).bind parseU64).getD 0,
                  total := ((parts.get? 2).bind parseU64).getD 0,
                  percent := (parseF64 (trimEndMatchesChar ((parts.get? 3).getD "") '%')).getD 0 }]
      else acc) []
  let load_parts := (splitWhitespace (strTrim load_output)).filterMap parseF64
  let load_avg : MRat × MRat × MRat :=
    ((load_parts.get? 0).getD 0, (load_parts.get? 1).getD 0, (load_parts.get? 2).getD 0)
  let uptime : Nat := (parseU64 (strTrim uptime_output)).getD 0
  let process_count : Nat := (parseU32 (strTrim proc_output)).getD 0
  let net_parts := splitWhitespace (strTrim network_output)
  let bytes_recv : Nat := ((net_parts.get? 0).bind parseU64).getD 0
  let packets_recv : Nat := ((net_parts.get? 1).bind parseU64).getD 0
  let bytes_sent : Nat := ((net_parts.get? 2).bind parseU64).getD 0
  let packets_sent : Nat := ((net_parts.get? 3).bind parseU64).getD 0
  let interface := strTrim iface_output
  let network : NetworkStats :=
    { bytes_sent := bytes_sent, bytes_recv := bytes_recv,
      packets_sent := packets_sent, packets_recv := packets_recv, interface := interface }
  let st := { st with cpu_history := pushHistory st.cpu_history cpu_percent }
  let mem_percent : MRat :=
    if memory_total > 0 then MRat.ofN memory_used / MRat.ofN memory_total * 100 else 0
  let st := { st with memory_history := pushHistory st.memory_history mem_percent }
  let st := (updateNetworkHistory st network timestamp).2
  ({ cpu_percent := cpu_percent, memory_used := memory_used, memory_total := memory_total,
     disk_usage := disk_usage, load_avg := load_avg, uptime := uptime,
     process_count := process_count, network := network,
     cpu_history := st.cpu_history, memory_history := st.memory_history,
     network_history := st.network_history }, st)

/-- `get_system_metrics` (commands.rs, lines 160-345).  A missing client
is the `ok_or("Not connected")?` failure; each of the seven joined
diagnostic commands propagates its `CommandError::message` through
`map_err(|e| e.message)?`; only the interface-name command is softened
with `unwrap_or_else(|_| "eth0")`. -/
def get_system_metrics (st : AppState) (r : CmdResults) (timestamp : Nat) :
    Except String (SystemMetrics × AppState) :=
  match st.ssh_client with
  | none => .error "Not connected"
  | some _ =>
  match r.cpu with
  | .error e => .error e.message
  | .ok cpu_output =>
  match r.mem with
  | .error e => .error e.message
  | .ok mem_output =>
  match r.disk with
  | .error e => .error e.message
  | .ok disk_output =>
  match r.load with
  | .error e => .error e.message
  | .ok load_output =>
  match r.uptime with
  | .error e => .error e.message
  | .ok uptime_output =>
  match r.proc with
  | .error e => .error e.message
  | .ok proc_output =>
  match r.net with
  | .error e => .error e.message
  | .ok network_output =>
  let iface_output := match r.iface with
    | .ok s => s
    | .error _ => "eth0"
  .ok (buildMetrics st timestamp cpu_output mem_output disk_output load_output
        uptime_output proc_output network_output iface_output)

/-- `connect_to_server` (commands.rs, lines 97-148) restricted to its
effect on the shared state: on a successful `connect` the client handle
is stored; on failure the state is untouched (profile persistence is out
of scope).  The returned flag is `ConnectionResult::success`. -/
def connect_to_server (st : AppState) (connectOk : Bool) : AppState × Bool :=
  if connectOk then ({ st with ssh_client := some () }, true) else (st, false)

/-- `disconnect_server` (commands.rs, lines 151-157): take the client and
drop it.  No other field of the state is touched — in particular
`last_network_stats` survives a disconnect. -/
def disconnect_server (st : AppState) : AppState :=
  { st with ssh_client := none }

/-! ## Compose discovery cache (src-tauri/src/compose_discovery.rs)

The remote shell is an oracle `exec : String → Except CommandError String`
(the shared `SshClient::execute_command`).  Alongside each result the
embedding returns the trace of issued remote commands, so that "no
directory walk" and "one read per artifact" are statable.  The per-target
JSON cache files are modelled as a map from server id to the parsed
entry; the serde round-trip of `ComposeCacheEntry` is the identity, and a
missing or unparseable file is `none`. -/

structure CachedComposeProject where
  name : String
  path : String
  compose_file : String
deriving DecidableEq

structure ComposeCacheEntry where
  projects : List CachedComposeProject
  last_scan : Nat
  scan_paths : List String
deriving DecidableEq

structure ComposeProject where
  name : String
  path : String
  services : List String
  content : String
deriving DecidableEq

/-- The two tiers of `ComposeDiscoveryCache` (compose_discovery.rs, lines
26-46): the in-memory map behind the mutex, and the per-target cache
files in the cache directory. -/
structure ComposeDiscoveryCache where
  mem : String → Option ComposeCacheEntry
  disk : String → Option ComposeCacheEntry

/-- `ComposeDiscoveryCache::get` (compose_discovery.rs, lines 52-75):
memory first; on a miss, read and parse the per-target file and load it
into memory.  Returns the found entry and the updated cache. -/
def ComposeDiscoveryCache.get (c : ComposeDiscoveryCache) (server_id : String) :
    Option ComposeCacheEntry × ComposeDiscoveryCache :=
  match c.mem server_id with
  | some entry => (some entry, c)
  | none =>
    match c.disk server_id with
    | some entry =>
      (some entry, { c with mem := fun k => if k = server_id then some entry else c.mem k })
    | none => (none, c)

/-- `ComposeDiscoveryCache::set` (compose_discovery.rs, lines 77-93):
replace the memory entry first, then write the file.  `writeFailure`
carries the io error of `fs::write` when the disk write fails; the
in-memory update is never unwound. -/
def ComposeDiscoveryCache.set (c : ComposeDiscoveryCache) (server_id : String)
    (entry : ComposeCacheEntry) (writeFailure : Option String) :
    ComposeDiscoveryCache × Except String Unit :=
  let c := { c with mem := fun k => if k = server_id then some entry else c.mem k }
  match writeFailure with
  | some e => (c, .error ("Failed to write cache file: " ++ e))
  | none =>
    ({ c with disk := fun k => if k = server_id then some entry else c.disk k }, .ok ())

/-- `ComposeDiscoveryCache::invalidate` (compose_discovery.rs, lines
95-101): best-effort removal from both tiers. -/
def ComposeDiscoveryCache.invalidate (c : ComposeDiscoveryCache) (server_id : String) :
    ComposeDiscoveryCache :=
  { mem := fun k => if k = server_id then none else c.mem k,
    disk := fun k => if k = server_id then none else c.disk k }

/-- A single-quote character, kept out of string literals. -/
def squote : String := String.singleton (Char.ofNat 39)

/-- The `cat` command issued for one compose file path
(compose_discovery.rs, lines 143 and 206). -/
def catCmd (path : String) : String := "cat " ++ squote ++ path ++ squote

/-- The bounded `find` command for one scan root
(compose_discovery.rs, lines 182-185). -/
def findCmd (base : String) : String :=
  "find " ++ base ++ " -maxdepth 3 -type f \\( -name " ++ squote ++ "docker-compose.yml"
    ++ squote ++ " -o -name " ++ squote ++ "docker-compose.yaml" ++ squote ++ " -o -name "
    ++ squote ++ "compose.yml" ++ squote ++ " -o -name " ++ squote ++ "compose.yaml"
    ++ squote ++ " \\) 2>/dev/null"

/-- The fixed scan roots of `scan_and_cache` (compose_discovery.rs,
lines 171-175). -/
def scanPathsList : List String := ["/home/*/", "/opt/", "/srv/"]

/-- `Path::new(path).parent().and_then(|p| p.file_name())` with the
`unwrap_or("unknown")` of compose_discovery.rs, lines 197-202: the last
component of the parent directory. -/
def projectNameOfPath (path : String) : String :=
  let comps := strSplitChar path '/'
  match (comps.dropLast).getLast? with
  | some c => if strIsEmpty c then "unknown" else c
  | none => "unknown"

/-- `compose_projects_from_cache` (compose_discovery.rs, lines 135-158):
one `cat` per cached project, with the services re-derived from the
freshly read content; a failed read degrades the content to a fixed
message.  Returns the projects and the issued command trace. -/
def compose_projects_from_cache (exec : String → Except CommandError String)
    (entry : ComposeCacheEntry) : List ComposeProject × List String :=
  (entry.projects.map (fun cached =>
      let content := match exec (catCmd cached.path) with
        | .ok s => s
        | .error _ => "Unable to read file"
      { name := cached.name, path := cached.path,
        services := extract_services_from_content content, content := content }),
   entry.projects.map (fun cached => catCmd cached.path))

/-- The per-scan-root body of `scan_and_cache` (compose_discovery.rs,
lines 180-225): one `find`, then one `cat` per non-empty result line. -/
def scanRootStep (exec : String → Except CommandError String)
    (acc : List ComposeProject × List CachedComposeProject × List String)
    (base_path : String) : List ComposeProject × List CachedComposeProject × List String :=
  let output := match exec (findCmd base_path) with
    | .ok s => s
    | .error _ => ""
  let acc := (acc.1, acc.2.1, acc.2.2 ++ [findCmd base_path])
  (rustLines output).foldl (fun acc2 path =>
      if strIsEmpty path then acc2
      else
        let path := strTrim path
        let name := projectNameOfPath path
        let content := match exec (catCmd path) with
          | .ok s => s
          | .error _ => "Unable to read file"
        let services := extract_services_from_content content
        (acc2.1 ++ [{ name := name, path := path, services := services, content := content }],
         acc2.2.1 ++ [{ name := name, path := path, compose_file := path }],
         acc2.2.2 ++ [catCmd path])) acc

/-- `scan_and_cache` (compose_discovery.rs, lines 160-239): the bounded
directory walk over the fixed roots, followed by `cache.set` (whose
disk-write outcome is `writeFailure`; a failure is only logged).  Returns
the projects, the updated cache, and the issued command trace. -/
def scan_and_cache (exec : String → Except CommandError String)
    (cache : ComposeDiscoveryCache) (server_id : String) (now : Nat)
    (writeFailure : Option String) :
    List ComposeProject × ComposeDiscoveryCache × List String :=
  let r := scanPathsList.foldl (scanRootStep exec) ([], [], [])
  let cache_entry : ComposeCacheEntry :=
    { projects := r.2.1, last_scan := now, scan_paths := scanPathsList }
  let cache := (cache.set server_id cache_entry writeFailure).1
  (r.1, cache, r.2.2)

/-- `scan_compose_files` (compose_discovery.rs, lines 111-133): a cache
entry fresher than 86400 seconds short-circuits to
`compose_projects_from_cache`; otherwise the full walk runs.  The `u64`
subtraction `now - entry.last_scan` is `Nat` subtraction here, faithful
whenever `entry.last_scan ≤ now`. -/
def scan_compose_files (exec : String → Except CommandError String)
    (cache : ComposeDiscoveryCache) (server_id : String) (now : Nat)
    (writeFailure : Option String) :
    (Except String (List ComposeProject)) × ComposeDiscoveryCache × List String :=
  let g := cache.get server_id
  match g.1 with
  | some entry =>
    if now - entry.last_scan < 86400 then
      let r := compose_projects_from_cache exec entry
      (.ok r.1, g.2, r.2)
    else
      let r := scan_and_cache exec g.2 server_id now writeFailure
      (.ok r.1, r.2.1, r.2.2)
  | none =>
    let r := scan_and_cache exec g.2 server_id now writeFailure
    (.ok r.1, r.2.1, r.2.2)

/-- `refresh_compose_scan` (compose_discovery.rs, lines 290-300):
invalidate, then walk unconditionally. -/
def refresh_compose_scan (exec : String → Except CommandError String)
    (cache : ComposeDiscoveryCache) (server_id : String) (now : Nat)
    (writeFailure : Option String) :
    List ComposeProject × ComposeDiscoveryCache × List String :=
  scan_and_cache exec (cache.invalidate server_id) server_id now writeFailure

/-! ## Concrete inputs used by the counterexamples and witnesses -/

/-- A run of the eight diagnostic commands in which only the CPU command
fails at the command-execution level. -/
def c1Results : CmdResults :=
  { cpu := .error ⟨"cpu probe failed", -1⟩, mem := .ok "3000 8000",
    disk := .ok "/ 100 200 50%", load := .ok "0.1 0.2 0.3",
    uptime := .ok "100", proc := .ok "42",
    net := .ok "1000 10 2000 20", iface := .ok "eth0\n" }

/-- The application state right after a successful connect. -/
def c1State : AppState := (connect_to_server appStateDefault true).1

/-- An authenticated session handle. -/
def c2Session : SshState := some ⟨true⟩

/-- A channel run whose command writes nothing to stdout, exits with
status 1 and leaves content on the error channel. -/
def c2Channel : ChannelEnv :=
  { openChannel := .ok (), execCall := .ok (), readStdout := .ok "",
    waitClose := .ok (), exitStatus := .ok 1, stderrContent := "boom" }

/-- A first metrics run: every command succeeds; the raw network counters
are 1000 bytes / 10 packets received, 2000 bytes / 20 packets sent. -/
def c5Results1 : CmdResults :=
  { cpu := .ok "10.5", mem := .ok "3000 8000", disk := .ok "/ 100 200 50%",
    load := .ok "0.1 0.2 0.3", uptime := .ok "100", proc := .ok "42",
    net := .ok "1000 10 2000 20", iface := .ok "eth0\n" }

/-- A second metrics run with strictly greater raw network counters:
1500 bytes / 15 packets received, 2600 bytes / 26 packets sent. -/
def c5Results2 : CmdResults :=
  { c5Results1 with net := .ok "1500 15 2600 26" }

/-- State after the first snapshot on a fresh connection. -/
def c5State2 : AppState :=
  match get_system_metrics c1State c5Results1 100 with
  | .ok p => p.2
  | .error _ => appStateDefault

/-- State after disconnecting and connecting again: the first snapshot
taken from here is the first sample after a reconnect. -/
def c5State3 : AppState := (connect_to_server (disconnect_server c5State2) true).1

/-- A stored last network sample for the amended-claim witness. -/
def c5wLast : NetworkStats :=
  { bytes_sent := 2000, bytes_recv := 1000, packets_sent := 20, packets_recv := 10,
    interface := "eth0" }

/-- A new raw network sample strictly above `c5wLast`. -/
def c5wNet : NetworkStats :=
  { bytes_sent := 2600, bytes_recv := 1500, packets_sent := 26, packets_recv := 15,
    interface := "eth0" }

/-- A state holding `c5wLast` as the last stored sample. -/
def c5wState : AppState := { appStateDefault with last_network_stats := some c5wLast }

/-- A remote shell whose every read returns one small compose file. -/
def c4Exec : String → Except CommandError String :=
  fun _ => .ok "services:\n  app:\n    image: nginx\n"

/-- A cache entry scanned at epoch second 1000 with one known artifact. -/
def c4Entry : ComposeCacheEntry :=
  { projects := [{ name := "app", path := "/opt/app/docker-compose.yml",
                   compose_file := "/opt/app/docker-compose.yml" }],
    last_scan := 1000, scan_paths := ["/opt/"] }

/-- A cache whose memory tier holds `c4Entry` for server `host1`. -/
def c4Cache : ComposeDiscoveryCache :=
  { mem := fun k => if k = "host1" then some c4Entry else none, disk := fun _ => none }

/-- An empty two-tier cache. -/
def c8Cache : ComposeDiscoveryCache := { mem := fun _ => none, disk := fun _ => none }

/-- An arbitrary cache entry to store. -/
def c8Entry : ComposeCacheEntry :=
  { projects := [{ name := "web", path := "/srv/web/compose.yml",
                   compose_file := "/srv/web/compose.yml" }],
    last_scan := 500, scan_paths := ["/srv/"] }

/-- A previously stored authenticated session. -/
def c10Stored : SshState := some ⟨true⟩

/-- A connection profile for the failed-reconnect witness. -/
def c10Profile : ServerProfile :=
  { id := "id1", name := "prod", host := "h", port := 22, username := "root",
    auth_method := .password "pw" }

/-- An environment in which the TCP connect is refused. -/
def c10Env : ConnectEnv :=
  { tcpConnect := .error "refused", sessionNew := .ok (), handshake := .ok (),
    userauth := .ok (), authenticated := true, home := none }

/-! ## Theorems for the claims -/

/-- Claim C1, counterexample: a run in which exactly one diagnostic
command (CPU) fails at the command-execution level while every other
command succeeds does not produce a degraded snapshot — the whole
`get_system_metrics` call fails with that command's error message,
contradicting the claimed lenient-degrade policy for command failures. -/
theorem get_system_metrics_single_failure_aborts :
    get_system_metrics c1State c1Results 0 = .error "cpu probe failed" := by decide

/-- Claim C1, amended: a missing connected session fails
`get_system_metrics` with "Not connected", and the snapshot is produced
exactly when all seven diagnostic commands (CPU, memory, disk, load,
uptime, process count, network counters) succeed at the
command-execution level — any one such failure aborts the whole
operation.  Only parse failures (and the interface-name command) degrade
to defaults. -/
theorem get_system_metrics_error_propagation (st : AppState) (r : CmdResults) (t : Nat) :
    get_system_metrics { st with ssh_client := none } r t = .error "Not connected" ∧
    ((get_system_metrics { st with ssh_client := some () } r t).isOk = true ↔
      (r.cpu.isOk = true ∧ r.mem.isOk = true ∧ r.disk.isOk = true ∧ r.load.isOk = true ∧
       r.uptime.isOk = true ∧ r.proc.isOk = true ∧ r.net.isOk = true)) := by
  obtain ⟨cpu, mem, dsk, load, up, pr, net, ifc⟩ := r
  refine ⟨rfl, ?_⟩
  cases cpu <;> cases mem <;> cases dsk <;> cases load <;> cases up <;> cases pr <;> cases net <;>
    simp [get_system_metrics, Except.isOk, Except.toBool]

/-- Claim C2: on an authenticated session whose channel operations
succeed, a command that wrote nothing to stdout, left content on the
error channel and exited non-zero still yields `Ok ""` — the source
initializes its `stderr` to the empty string and never reads the error
channel, so the documented `ChannelError` branch is unreachable. -/
theorem execute_command_ignores_error_channel :
    c2Channel.stderrContent = "boom" ∧ c2Channel.readStdout = .ok "" ∧
    execute_command c2Session "docker ps" c2Channel = .ok "" := by decide

/-- Claim C3: on the five-line compose document of the claim,
`extract_services_from_content` returns `["web", "image", "db", "image"]`
rather than the `["web", "db"]` asserted by the claim and by the
repository's own unit test — every line nested deeper than the
`services:` marker that contains a colon is collected, including the
`image:` keys. -/
theorem extract_services_collects_nested_keys :
    extract_services_from_content "services:\n  web:\n    image: nginx\n  db:\n    image: postgres\n"
      = ["web", "image", "db", "image"] := by decide

/-- Claim C4: when the cache holds an entry fresher than 86400 seconds,
`scan_compose_files` issues exactly the `cat` command of each cached
artifact (one remote read per artifact, in order, and nothing else — in
particular no `find` walk), and returns projects whose service lists are
re-derived by `extract_services_from_content` from the freshly read
content. -/
theorem scan_compose_files_fresh_cache_hit
    (exec : String → Except CommandError String) (cache : ComposeDiscoveryCache)
    (server_id : String) (now : Nat) (writeFailure : Option String)
    (entry : ComposeCacheEntry)
    (hget : (cache.get server_id).1 = some entry)
    (hle : entry.last_scan ≤ now)
    (hfresh : now - entry.last_scan < 86400) :
    (scan_compose_files exec cache server_id now writeFailure).2.2
        = entry.projects.map (fun cached => catCmd cached.path) ∧
    (scan_compose_files exec cache server_id now writeFailure).2.2.length
        = entry.projects.length ∧
    (∀ cmd ∈ (scan_compose_files exec cache server_id now writeFailure).2.2,
        ∃ cached ∈ entry.projects, cmd = catCmd cached.path) ∧
    (scan_compose_files exec cache server_id now writeFailure).1
        = .ok (entry.projects.map (fun cached =>
            let content := match exec (catCmd cached.path) with
              | .ok s => s
              | .error _ => "Unable to read file"
            { name := cached.name, path := cached.path,
              services := extract_services_from_content content, content := content })) := by
  have hmain : scan_compose_files exec cache server_id now writeFailure
      = (.ok (compose_projects_from_cache exec entry).1, (cache.get server_id).2,
         (compose_projects_from_cache exec entry).2) := by
    simp [scan_compose_files, hget, hfresh]
  rw [hmain]
  refine ⟨rfl, by simp [compose_projects_from_cache], ?_, rfl⟩
  intro cmd hcmd
  simp only [compose_projects_from_cache, List.mem_map] at hcmd
  obtain ⟨cached, hc, rfl⟩ := hcmd
  exact ⟨cached, hc, rfl⟩

/-- Claim C4, witness: a concrete fresh cache hit, with the hypotheses
checked by evaluation and the command trace obtained from the theorem. -/
theorem scan_compose_files_fresh_cache_hit_witness :
    ((c4Cache.get "host1").1 = some c4Entry ∧ c4Entry.last_scan ≤ 2000 ∧
      2000 - c4Entry.last_scan < 86400) ∧
    (scan_compose_files c4Exec c4Cache "host1" 2000 none).2.2
      = c4Entry.projects.map (fun cached => catCmd cached.path) :=
  ⟨⟨by decide, by decide, by decide⟩,
   (scan_compose_files_fresh_cache_hit c4Exec c4Cache "host1" 2000 none c4Entry
      (by decide) (by decide) (by decide)).1⟩

/-- Claim C5, counterexample: a snapshot is taken on a fresh connection
(raw counters 2000 bytes sent / 1000 bytes received), the server is
disconnected and reconnected, and a second snapshot is taken with
strictly greater raw counters.  The network-delta point appended by that
first-after-reconnect snapshot is `(600, 500)`, not all-zero: the stored
last sample survives the reconnect, contradicting the claim that the
first sample after a (re)connect yields a zero delta. -/
theorem network_delta_nonzero_after_reconnect :
    (match get_system_metrics c5State3 c5Results2 200 with
     | .ok p => p.1.network_history.getLast?.map (fun q => (q.bytes_sent, q.bytes_recv))
     | .error _ => none) = some (600, 500) := by decide

/-- Claim C5, amended: the appended network-delta point is all-zero
exactly when no previous sample is stored (the first sample since
application start — neither `disconnect_server` nor `connect_to_server`
clears the stored sample, so a reconnect does not reset it); with a
stored sample the delta is the saturating byte-counter difference (the
raw difference when the new counters are at least the stored ones, 0
when smaller); and the new raw sample is stored as last unconditionally
while the point is appended to the network history. -/
theorem updateNetworkHistory_delta_spec (st : AppState) (network : NetworkStats) (t : Nat) :
    (st.last_network_stats = none →
      (updateNetworkHistory st network t).1 = ⟨t, 0, 0⟩) ∧
    (∀ last, st.last_network_stats = some last →
      (updateNetworkHistory st network t).1.bytes_sent
          = network.bytes_sent - last.bytes_sent ∧
      (updateNetworkHistory st network t).1.bytes_recv
          = network.bytes_recv - last.bytes_recv ∧
      (last.bytes_sent ≤ network.bytes_sent →
        (updateNetworkHistory st network t).1.bytes_sent + last.bytes_sent
          = network.bytes_sent) ∧
      (network.bytes_sent < last.bytes_sent →
        (updateNetworkHistory st network t).1.bytes_sent = 0) ∧
      (last.bytes_recv ≤ network.bytes_recv →
        (updateNetworkHistory st network t).1.bytes_recv + last.bytes_recv
          = network.bytes_recv) ∧
      (network.bytes_recv < last.bytes_recv →
        (updateNetworkHistory st network t).1.bytes_recv = 0)) ∧
    (updateNetworkHistory st network t).2.last_network_stats = some network ∧
    (updateNetworkHistory st network t).2.network_history
      = pushHistory st.network_history (updateNetworkHistory st network t).1 ∧
    (disconnect_server st).last_network_stats = st.last_network_stats ∧
    ∀ b, ((connect_to_server st b).1).last_network_stats = st.last_network_stats := by
  refine ⟨?_, ?_, ?_, ?_, rfl, ?_⟩
  · intro h
    simp [updateNetworkHistory, h]
  · intro last h
    refine ⟨by simp [updateNetworkHistory, h], by simp [updateNetworkHistory, h],
      ?_, ?_, ?_, ?_⟩ <;> intro hc <;> simp [updateNetworkHistory, h] <;> omega
  · simp [updateNetworkHistory]
  · simp [updateNetworkHistory]
  · intro b
    cases b <;> simp [connect_to_server]

/-- Claim C5, witness: the zero point on a state with no stored sample,
and the exact raw difference on a state holding a smaller stored
sample, both obtained from the amended theorem at concrete inputs. -/
theorem updateNetworkHistory_delta_spec_witness :
    (updateNetworkHistory appStateDefault c5wNet 5).1 = ⟨5, 0, 0⟩ ∧
    (updateNetworkHistory c5wState c5wNet 5).1.bytes_sent + c5wLast.bytes_sent
      = c5wNet.bytes_sent := by
  refine ⟨(updateNetworkHistory_delta_spec appStateDefault c5wNet 5).1 (by decide), ?_⟩
  exact ((updateNetworkHistory_delta_spec c5wState c5wNet 5).2.1 c5wLast (by decide)).2.2.1
    (by decide)

/-- Shared helper for the history-buffer claim: folding the program's
append step from the empty buffer retains exactly the trailing
`MAX_HISTORY_POINTS` elements. -/
theorem foldl_pushHistory_drop {α : Type} (vs : List α) :
    vs.foldl pushHistory [] = vs.drop (vs.length - MAX_HISTORY_POINTS) := by
  have hM : MAX_HISTORY_POINTS = 10 := rfl
  induction vs using List.reverseRecOn with
  | nil => rfl
  | append_singleton xs v ih =>
    rw [List.foldl_append, List.foldl_cons, List.foldl_nil, ih]
    by_cases h : xs.length < MAX_HISTORY_POINTS
    · have h1 : xs.length - MAX_HISTORY_POINTS = 0 := by omega
      have h2 : (xs ++ [v]).length - MAX_HISTORY_POINTS = 0 := by
        simp only [List.length_append, List.length_cons, List.length_nil]
        omega
      rw [h1, h2, List.drop_zero, List.drop_zero]
      unfold pushHistory
      simp only [List.length_append, List.length_cons, List.length_nil, List.length_drop]
      rw [if_neg (by omega)]
    · have hlen : (xs.drop (xs.length - MAX_HISTORY_POINTS)).length = MAX_HISTORY_POINTS := by
        rw [List.length_drop]; omega
      unfold pushHistory
      simp only [List.length_append, List.length_cons, List.length_nil, hlen]
      rw [if_pos (by omega)]
      rw [List.drop_append_eq_append_drop, List.drop_append_eq_append_drop]
      rw [List.drop_drop, hlen]
      have e2 : 1 - MAX_HISTORY_POINTS = 0 := by omega
      have e3 : xs.length + (0 + 1) - MAX_HISTORY_POINTS - xs.length = 0 := by omega
      have e1 : xs.length - MAX_HISTORY_POINTS + 1
          = xs.length + (0 + 1) - MAX_HISTORY_POINTS := by omega
      simp only [List.length_append, List.length_cons, List.length_nil, e1, e2, e3,
        List.drop_zero]

/-- Claim C6: after any sequence of appends through the program's
history step (the push-then-trim used for all three buffers, which each
snapshot invokes once per buffer starting from the empty vectors of
`AppState::default`), the buffer length is `min N MAX_HISTORY_POINTS`
and its contents are exactly the last `min N 10` appended values in
order, oldest first; in particular the length never exceeds 10 after
any prefix of the sequence. -/
theorem pushHistory_fold_spec : ∀ (α : Type) (vs : List α),
    (vs.foldl pushHistory []).length = min vs.length MAX_HISTORY_POINTS ∧
    vs.foldl pushHistory [] = vs.drop (vs.length - MAX_HISTORY_POINTS) := by
  intro α vs
  refine ⟨?_, foldl_pushHistory_drop vs⟩
  rw [foldl_pushHistory_drop vs, List.length_drop]
  omega

/-- Claim C7: the memory-string parser maps "1.5GiB" to 1610612736,
"100MiB" and "100MB" both to 104857600 (binary and decimal suffixes are
conflated as binary multiples), and the unitless "2048" to 2048. -/
theorem parse_memory_table :
    parse_memory "1.5GiB" = 1610612736 ∧ parse_memory "100MiB" = 104857600 ∧
    parse_memory "100MB" = 104857600 ∧ parse_memory "2048" = 2048 := by decide

/-- Claim C8: `set` replaces the in-memory entry first (a subsequent
`get` in the same process finds it), then writes the same entry to the
per-target file; a disk-write failure is reported as an error but the
in-memory update persists and the disk is left untouched. -/
theorem cache_set_memory_first (c : ComposeDiscoveryCache) (server_id : String)
    (entry : ComposeCacheEntry) (writeFailure : Option String) :
    ((c.set server_id entry writeFailure).1).mem server_id = some entry ∧
    (((c.set server_id entry writeFailure).1).get server_id).1 = some entry ∧
    (writeFailure = none →
      (c.set server_id entry writeFailure).2 = .ok () ∧
      ((c.set server_id entry writeFailure).1).disk server_id = some entry) ∧
    (∀ e, writeFailure = some e →
      (c.set server_id entry writeFailure).2
          = .error ("Failed to write cache file: " ++ e) ∧
      ((c.set server_id entry writeFailure).1).disk server_id = c.disk server_id) := by
  cases writeFailure <;>
    simp [ComposeDiscoveryCache.set, ComposeDiscoveryCache.get]

/-- Claim C8, witness: a concrete `set` whose disk write fails still
leaves the entry readable in memory while reporting the error. -/
theorem cache_set_memory_first_witness :
    ((c8Cache.set "srv" c8Entry (some "disk full")).1.mem "srv" = some c8Entry) ∧
    ((c8Cache.set "srv" c8Entry (some "disk full")).2
        = .error ("Failed to write cache file: " ++ "disk full")) :=
  ⟨(cache_set_memory_first c8Cache "srv" c8Entry (some "disk full")).1,
   ((cache_set_memory_first c8Cache "srv" c8Entry (some "disk full")).2.2.2
      "disk full" rfl).1⟩

/-- Claim C9: on a newly created (disconnected) client, `connect`
succeeds exactly when `is_connected` is true afterwards — never success
with a disconnected session, and never an error with a connected one. -/
theorem connect_success_iff_connected (config : ServerProfile) (env : ConnectEnv) :
    is_connected (sshConnect none config env).1 = ((sshConnect none config env).2).isOk := by
  obtain ⟨tc, sn, hs, ua, au, hm⟩ := env
  cases tc <;> cases sn <;> cases hs <;> cases ua <;> cases au <;>
    simp [sshConnect, is_connected, Except.isOk, Except.toBool]

/-- Claim C10: whenever `connect` returns an error — on any of its
failure paths (TCP, session creation, handshake, authentication, or the
post-authentication check) — the stored session handle is exactly what
it was before the call, so `is_connected` is unaffected. -/
theorem connect_failure_preserves_session (stored : SshState) (config : ServerProfile)
    (env : ConnectEnv) (e : CommandError)
    (h : (sshConnect stored config env).2 = .error e) :
    (sshConnect stored config env).1 = stored ∧
    is_connected (sshConnect stored config env).1 = is_connected stored := by
  obtain ⟨tc, sn, hs, ua, au, hm⟩ := env
  cases tc <;> cases sn <;> cases hs <;> cases ua <;> cases au <;>
    simp_all [sshConnect]

/-- Claim C10, witness: a refused TCP connect on a client holding a
previously authenticated session leaves that session (and
`is_connected`) untouched. -/
theorem connect_failure_preserves_session_witness :
    (sshConnect c10Stored c10Profile c10Env).1 = c10Stored ∧
    is_connected (sshConnect c10Stored c10Profile c10Env).1 = is_connected c10Stored :=
  connect_failure_preserves_session c10Stored c10Profile c10Env
    ⟨"Failed to connect to h:22: refused", -1⟩ (by decide)
